import Mathlib

/-!
Shallow embedding of the order synchronization and file-export pipeline of
`chl_web/orders` (`models.py` and `scripts/upload_orders_file_to_sftp.py`),
together with theorems checking the specification's claims against it.

Python `datetime` values are modelled as a broken-down record of naturals,
raw JSON documents as structures with the accessed fields, the database
tables as lists of records in insertion order, and fallible operations
(string parsing, indexing into possibly-empty lists, network calls) as
`Option`/`Except` results.
-/

/-- Broken-down naive timestamp, mirroring Python `datetime.datetime`
(no timezone; microsecond precision). -/
structure DateTime where
  year : Nat
  month : Nat
  day : Nat
  hour : Nat
  minute : Nat
  second : Nat
  microsecond : Nat
deriving DecidableEq, Repr

/-- Decimal rendering of a natural, left-padded with zeros to width `w`,
as produced by `strftime` field directives. -/
def padNum (w n : Nat) : String :=
  let s := toString n
  String.mk (List.replicate (w - s.length) '0') ++ s

/-- Embedding of `Order.erp_strftime`: `None` formats to the empty string,
otherwise the date is formatted with `"%d%m%Y"`. -/
def Order.erp_strftime : Option DateTime → String
  | none => ""
  | some date => padNum 2 date.day ++ padNum 2 date.month ++ padNum 4 date.year

/-- Formatting with `"%Y-%m-%dT%H:%M:%S.%fZ"`, the `hours_range_format`
used by `Order.get_orders_filter_hours_range`. -/
def hoursRangeFormat (d : DateTime) : String :=
  padNum 4 d.year ++ "-" ++ padNum 2 d.month ++ "-" ++ padNum 2 d.day ++ "T" ++
    padNum 2 d.hour ++ ":" ++ padNum 2 d.minute ++ ":" ++ padNum 2 d.second ++ "." ++
    padNum 6 d.microsecond ++ "Z"

/-- Gregorian leap-year test, as used by Python's calendar arithmetic. -/
def isLeapYear (y : Nat) : Bool :=
  (y % 4 == 0 && y % 100 != 0) || (y % 400 == 0)

/-- Number of days of month `m` of year `y`. -/
def daysInMonth (y m : Nat) : Nat :=
  if m == 2 then (if isLeapYear y then 29 else 28)
  else if m == 4 || m == 6 || m == 9 || m == 11 then 30
  else 31

/-- Model of `datetime - timedelta(hours=1)` on a broken-down timestamp:
decrement the hour, rolling the date back one day (with month and year
rollover) when the hour was 0. -/
def subOneHour (d : DateTime) : DateTime :=
  if d.hour ≥ 1 then { d with hour := d.hour - 1 }
  else if d.day > 1 then { d with hour := 23, day := d.day - 1 }
  else if d.month > 1 then
    { d with hour := 23, month := d.month - 1, day := daysInMonth d.year (d.month - 1) }
  else { d with hour := 23, year := d.year - 1, month := 12, day := 31 }

/-- Embedding of `Order.get_orders_filter_hours_range`.  The two calls of
`datetime.utcnow()` are modelled by the single parameter `now`.  The source
assigns `from_time = utcnow()` when `from_time is None` and
`to_time = utcnow() - timedelta(hours=1)` when `to_time is None`, then
renders `creationDate:[<from> TO <to>]`. -/
def Order.get_orders_filter_hours_range
    (now : DateTime) (from_time to_time : Option DateTime) : String :=
  let f := from_time.getD now
  let t := to_time.getD (subOneHour now)
  "creationDate:[" ++ hoursRangeFormat f ++ " TO " ++ hoursRangeFormat t ++ "]"

/-- Value of a decimal digit character, `none` on non-digits. -/
def charDigit (c : Char) : Option Nat :=
  if c.isDigit then some (c.toNat - 48) else none

/-- Match exactly four digits (the `%Y` directive of `strptime`). -/
def take4Digits : List Char → Option (Nat × List Char)
  | c1 :: c2 :: c3 :: c4 :: rest => do
    let d1 ← charDigit c1
    let d2 ← charDigit c2
    let d3 ← charDigit c3
    let d4 ← charDigit c4
    pure (((d1 * 10 + d2) * 10 + d3) * 10 + d4, rest)
  | _ => none

/-- Greedily match one or two digits (the `%m`, `%d`, `%H`, `%M`, `%S`
directives of `strptime`). -/
def take1or2Digits : List Char → Option (Nat × List Char)
  | [] => none
  | [c1] => (charDigit c1).map (fun d => (d, []))
  | c1 :: c2 :: rest =>
    match charDigit c1 with
    | none => none
    | some d1 =>
      match charDigit c2 with
      | some d2 => some (d1 * 10 + d2, rest)
      | none => some (d1, c2 :: rest)

/-- Match one literal character. -/
def expectChar (c : Char) : List Char → Option (List Char)
  | [] => none
  | x :: rest => if x = c then some rest else none

/-- Embedding of `datetime.strptime(·, "%Y-%m-%dT%H:%M:%S")`: parse the whole
character list as a date and time, validating field ranges as `datetime`
construction does; `none` models the `ValueError` raised on mismatch. -/
def strptimeYmdHms (l : List Char) : Option DateTime := do
  let (y, l) ← take4Digits l
  let l ← expectChar '-' l
  let (mo, l) ← take1or2Digits l
  let l ← expectChar '-' l
  let (d, l) ← take1or2Digits l
  let l ← expectChar 'T' l
  let (h, l) ← take1or2Digits l
  let l ← expectChar ':' l
  let (mi, l) ← take1or2Digits l
  let l ← expectChar ':' l
  let (s, l) ← take1or2Digits l
  if l = [] ∧ 1 ≤ y ∧ 1 ≤ mo ∧ mo ≤ 12 ∧ 1 ≤ d ∧ d ≤ daysInMonth y mo ∧
      h ≤ 23 ∧ mi ≤ 59 ∧ s ≤ 59 then
    some ⟨y, mo, d, h, mi, s, 0⟩
  else none

/-- Characters before the first `'.'`: Python's `date.split(".")[0]`. -/
def takeBeforeDot (l : List Char) : List Char :=
  l.takeWhile (fun c => c != '.')

/-- Embedding of `Order.ws_strptime`: drop everything from the first `'.'`
on (microseconds and timezone suffix) and parse the remainder with format
`"%Y-%m-%dT%H:%M:%S"`. -/
def Order.ws_strptime (date : String) : Option DateTime :=
  strptimeYmdHms (takeBeforeDot date.data)

example : Order.ws_strptime "2021-03-04T10:15:30.123Z" = some ⟨2021, 3, 4, 10, 15, 30, 0⟩ := by
  decide

example : Order.erp_strftime (some ⟨2021, 3, 4, 10, 15, 30, 0⟩) = "04032021" := by decide

example :
    Order.get_orders_filter_hours_range ⟨2021, 3, 4, 10, 15, 30, 0⟩ none none =
      "creationDate:[2021-03-04T10:15:30.000000Z TO 2021-03-04T09:15:30.000000Z]" := by
  decide

/-- Raw line item of the remote order document (`items[]`). -/
structure RawItem where
  ean : String
  quantity : Int
  price : Int
deriving DecidableEq, Repr

/-- Raw shipping address of the remote order document
(`shippingData.selectedAddresses[]`); every field may be absent. -/
structure RawAddress where
  street : Option String
  number : Option String
  complement : Option String
  neighborhood : Option String
  city : Option String
  reference : Option String
  postalCode : Option String
deriving DecidableEq, Repr

/-- Entry of `shippingData.logisticsInfo[]`. -/
structure RawLogisticsInfo where
  shippingEstimateDate : String
deriving DecidableEq, Repr

/-- The `shippingData` block of the remote order document. -/
structure RawShippingData where
  selectedAddresses : List RawAddress
  logisticsInfo : List RawLogisticsInfo
deriving DecidableEq, Repr

/-- The `clientProfileData` block of the remote order document. -/
structure RawClientProfileData where
  firstName : String
  lastName : String
  document : String
  phone : String
  email : String
deriving DecidableEq, Repr

/-- Remote order document as returned by the detail endpoint. -/
structure RawOrder where
  orderId : String
  creationDate : String
  clientProfileData : RawClientProfileData
  shippingData : RawShippingData
  items : List RawItem
deriving DecidableEq, Repr

/-- Result dictionary of `VtexClientOrder.format_ws_address_data`. -/
structure AddressData where
  city : Option String
  info : String
  reference : String
  postal_code : Option String
deriving DecidableEq, Repr

/-- The list comprehension filter of `format_ws_address_data`: keep the
values that are present and truthy (non-empty), Python's
`[address_data[info] for info in [...] if address_data.get(info)]`. -/
def truthyVals : List (Option String) → List String
  | [] => []
  | none :: rest => truthyVals rest
  | some s :: rest => if s = "" then truthyVals rest else s :: truthyVals rest

/-- Embedding of `VtexClientOrder.format_ws_address_data`: read the first
selected address (`none` models the `IndexError` on an empty list), join the
truthy address parts with single spaces, and default the reference to the
empty string. -/
def VtexClientOrder.format_ws_address_data (order : RawOrder) : Option AddressData :=
  match order.shippingData.selectedAddresses with
  | [] => none
  | address_data :: _ =>
    let address_info := String.intercalate " "
      (truthyVals [address_data.street, address_data.number,
        address_data.complement, address_data.neighborhood])
    some { city := address_data.city, info := address_info,
           reference := address_data.reference.getD "",
           postal_code := address_data.postalCode }

/-- Local `Order` row.  Fields that Python may leave as `None`
(`shipping_address_city`, `shipping_address_zip` come from `dict.get`, the
two dates from `datetime` values) are `Option`-typed. -/
structure OrderRec where
  order_type : String
  client_code : String
  file_type : String
  company_code : String
  order_created_at : Option DateTime
  shipping_stimate_date : Option DateTime
  currency : String
  buyer_fullname : String
  buyer_document : String
  buyer_phone : String
  buyer_email : String
  shipping_address : String
  shipping_address_city : Option String
  shipping_address_reference : String
  shipping_address_zip : Option String
  warehouse_code : String
  order_number : String
  sell_type : String
  sell_type_code : String
  payment_proof : String
  seller_code : String
  route_text_code : String
  from_api : RawOrder
deriving DecidableEq, Repr

/-- The `defaults` dictionary built by `VtexClientOrder.factory` for one raw
order. -/
structure OrderDefaults where
  order_created_at : DateTime
  shipping_stimate_date : DateTime
  buyer_fullname : String
  buyer_document : String
  buyer_phone : String
  buyer_email : String
  shipping_address : String
  shipping_address_city : Option String
  shipping_address_reference : String
  shipping_address_zip : Option String
  order_number : String
  route_text_code : String
  from_api : RawOrder
deriving DecidableEq, Repr

/-- Construction of the `defaults` dictionary in `VtexClientOrder.factory`:
`none` models the exceptions raised by a failing timestamp parse or by
indexing an empty `selectedAddresses`/`logisticsInfo` list. -/
def mkOrderDefaults (order : RawOrder) : Option OrderDefaults := do
  let address ← VtexClientOrder.format_ws_address_data order
  let created ← Order.ws_strptime order.creationDate
  let li ← order.shippingData.logisticsInfo.head?
  let shipping ← Order.ws_strptime li.shippingEstimateDate
  pure
    { order_created_at := created,
      shipping_stimate_date := shipping,
      buyer_fullname := order.clientProfileData.firstName ++ " " ++
        order.clientProfileData.lastName,
      buyer_document := order.clientProfileData.document,
      buyer_phone := order.clientProfileData.phone,
      buyer_email := order.clientProfileData.email,
      shipping_address := address.info,
      shipping_address_city := address.city,
      shipping_address_reference := address.reference,
      shipping_address_zip := address.postal_code,
      order_number := order.orderId,
      route_text_code := "",
      from_api := order }

/-- The update branch of Django's `update_or_create`: set every key of the
`defaults` dictionary on the existing row. -/
def applyOrderDefaults (r : OrderRec) (d : OrderDefaults) : OrderRec :=
  { r with
    order_created_at := some d.order_created_at,
    shipping_stimate_date := some d.shipping_stimate_date,
    buyer_fullname := d.buyer_fullname,
    buyer_document := d.buyer_document,
    buyer_phone := d.buyer_phone,
    buyer_email := d.buyer_email,
    shipping_address := d.shipping_address,
    shipping_address_city := d.shipping_address_city,
    shipping_address_reference := d.shipping_address_reference,
    shipping_address_zip := d.shipping_address_zip,
    order_number := d.order_number,
    route_text_code := d.route_text_code,
    from_api := d.from_api }

/-- The create branch of `update_or_create` on the `VtexClientOrder` proxy:
`VtexClientOrder.__init__` pins the integration-constant fields and the
remaining fields come from the lookup key and the `defaults` dictionary. -/
def newVtexClientOrder (d : OrderDefaults) : OrderRec :=
  { order_type := "H",
    client_code := "CT0000344",
    file_type := "E-COMM",
    company_code := "120",
    currency := "COP",
    sell_type := "V010",
    sell_type_code := "222",
    payment_proof := "",
    seller_code := "V02011",
    route_text_code := "",
    warehouse_code := "CM0000001",
    order_created_at := some d.order_created_at,
    shipping_stimate_date := some d.shipping_stimate_date,
    buyer_fullname := d.buyer_fullname,
    buyer_document := d.buyer_document,
    buyer_phone := d.buyer_phone,
    buyer_email := d.buyer_email,
    shipping_address := d.shipping_address,
    shipping_address_city := d.shipping_address_city,
    shipping_address_reference := d.shipping_address_reference,
    shipping_address_zip := d.shipping_address_zip,
    order_number := d.order_number,
    from_api := d.from_api }

/-- The `Order` table, rows in insertion order. -/
abbrev OrderStore := List OrderRec

/-- Lookup by the natural key `order_number` (Django `get`). -/
def findOrder (s : OrderStore) (k : String) : Option OrderRec :=
  s.find? (fun r => r.order_number == k)

/-- Replace the first row whose `order_number` is `k` (an in-place update
keeps the row's position in the table). -/
def replaceFirstOrder : OrderStore → String → OrderRec → OrderStore
  | [], _, _ => []
  | r :: rest, k, r' =>
    if r.order_number == k then r' :: rest else r :: replaceFirstOrder rest k r'

/-- `VtexClientOrder.objects.update_or_create(order_number=k, defaults=d)`:
update the existing row in place, or append a freshly constructed row. -/
def orderUpdateOrCreate (s : OrderStore) (k : String) (d : OrderDefaults) :
    OrderStore × OrderRec :=
  match findOrder s k with
  | some r =>
    let r' := applyOrderDefaults r d
    (replaceFirstOrder s k r', r')
  | none =>
    let r := newVtexClientOrder d
    (s ++ [r], r)

/-- Embedding of `VtexClientOrder.factory`: for each raw order build the
`defaults` dictionary and upsert by `order_number`, collecting the returned
rows; a raised exception (`none`) aborts the whole loop. -/
def VtexClientOrder.factory : List RawOrder → OrderStore → Option (OrderStore × List OrderRec)
  | [], s => some (s, [])
  | order :: rest, s => do
    let d ← mkOrderDefaults order
    let (s1, r) := orderUpdateOrCreate s order.orderId d
    let (s2, objs) ← VtexClientOrder.factory rest s1
    pure (s2, r :: objs)

/-- Local `OrderItem` row.  The owning order is referenced by its natural
key `order_number` (the foreign key of the source model). -/
structure ItemRec where
  order_number : String
  item_type : String
  item_number : Int
  ean : String
  item_qty : Int
  item_price_without_tax : Int
  destination_address_code : String
  qty : Int
  tax_code : String
deriving DecidableEq, Repr

/-- The `defaults` dictionary built by `VtexClientOrderItem.factory` for one
raw item. -/
structure ItemDefaults where
  item_number : Int
  item_qty : Int
  item_price_without_tax : Int
deriving DecidableEq, Repr

/-- Update branch of `update_or_create` for items: set the `defaults` keys
on the existing row. -/
def applyItemDefaults (r : ItemRec) (d : ItemDefaults) : ItemRec :=
  { r with
    item_number := d.item_number,
    item_qty := d.item_qty,
    item_price_without_tax := d.item_price_without_tax }

/-- Create branch of `update_or_create` on the `VtexClientOrderItem` proxy:
`__init__` pins `item_type`, `qty`, `destination_address_code` and
`tax_code` (the `"001"` 19% value), the rest comes from the lookup key and
the `defaults` dictionary. -/
def newVtexClientOrderItem (order_number ean : String) (d : ItemDefaults) : ItemRec :=
  { order_number := order_number,
    item_type := "D",
    qty := 0,
    destination_address_code := "",
    tax_code := "001",
    ean := ean,
    item_number := d.item_number,
    item_qty := d.item_qty,
    item_price_without_tax := d.item_price_without_tax }

/-- The `OrderItem` table, rows in insertion order. -/
abbrev ItemStore := List ItemRec

/-- Lookup by the composite natural key `(order, ean)`. -/
def findItem (s : ItemStore) (k ean : String) : Option ItemRec :=
  s.find? (fun r => r.order_number == k && r.ean == ean)

/-- Replace the first row with key `(k, ean)` in place. -/
def replaceFirstItem : ItemStore → String → String → ItemRec → ItemStore
  | [], _, _, _ => []
  | r :: rest, k, ean, r' =>
    if r.order_number == k && r.ean == ean then r' :: rest
    else r :: replaceFirstItem rest k ean r'

/-- `VtexClientOrderItem.objects.update_or_create(order=o, ean=e, defaults=d)`. -/
def itemUpdateOrCreate (s : ItemStore) (k ean : String) (d : ItemDefaults) :
    ItemStore × ItemRec :=
  match findItem s k ean with
  | some r =>
    let r' := applyItemDefaults r d
    (replaceFirstItem s k ean r', r')
  | none =>
    let r := newVtexClientOrderItem k ean d
    (s ++ [r], r)

/-- Inner loop of `VtexClientOrderItem.factory` over `enumerate(order.from_api["items"])`:
`index` is the 0-based enumeration counter, `item_number` is set to
`index + 1`, `item_qty` to the raw quantity and `item_price_without_tax`
to the raw minor-units price floor-divided by 100. -/
def VtexClientOrderItem.factoryItems (order_number : String) :
    List RawItem → Nat → ItemStore → ItemStore × List ItemRec
  | [], _, s => (s, [])
  | item :: rest, index, s =>
    let d : ItemDefaults :=
      { item_number := Int.ofNat (index + 1),
        item_qty := item.quantity,
        item_price_without_tax := Int.fdiv item.price 100 }
    let (s1, r) := itemUpdateOrCreate s order_number item.ean d
    let (s2, objs) := VtexClientOrderItem.factoryItems order_number rest (index + 1) s1
    (s2, r :: objs)

/-- Embedding of `VtexClientOrderItem.factory`: loop over the orders from
the database, upserting one `OrderItem` per entry of the retained raw
payload's item list. -/
def VtexClientOrderItem.factory : List OrderRec → ItemStore → ItemStore × List ItemRec
  | [], s => (s, [])
  | order :: rest, s =>
    let (s1, objs1) :=
      VtexClientOrderItem.factoryItems order.order_number order.from_api.items 0 s
    let (s2, objs2) := VtexClientOrderItem.factory rest s1
    (s2, objs1 ++ objs2)

/-- Rendering of an optional text field inside an f-string: Python formats
`None` as the string `"None"`. -/
def pyStrOpt : Option String → String
  | some s => s
  | none => "None"

/-- Embedding of `VtexClientOrder.get_file_headers`: the list of segments of
the header line, in source order; every segment except the first carries a
leading pipe. -/
def VtexClientOrder.get_file_headers (order : OrderRec) : List String :=
  [ order.order_type,
    "|" ++ order.client_code,
    "|" ++ order.file_type,
    "|" ++ order.company_code,
    "|" ++ Order.erp_strftime order.order_created_at,
    "|" ++ Order.erp_strftime order.shipping_stimate_date,
    "|" ++ order.currency,
    "|" ++ order.buyer_fullname ++ "/" ++ order.buyer_document ++ "/" ++
      pyStrOpt order.shipping_address_city ++ "/" ++ order.shipping_address ++ "/" ++
      order.buyer_phone ++ "/" ++ order.shipping_address_reference,
    "|1",
    "|" ++ order.warehouse_code,
    "|" ++ order.order_number,
    "|?," ++ order.buyer_document ++ ",?," ++ order.buyer_fullname ++ "," ++
      order.sell_type ++ "," ++ pyStrOpt order.shipping_address_zip,
    "|" ++ order.sell_type_code ++ "," ++ order.payment_proof,
    "|" ++ order.seller_code,
    "|" ++ order.route_text_code,
    "|" ++ order.buyer_email ]

/-- One item line of `VtexClientOrder.get_file_items`: the `"".join` of the
eight f-string segments, with the same grouping as the source (note the
trailing pipe inside the `destination_address_code` segment, which doubles
the separator before `qty`). -/
def VtexClientOrderItem.fileLine (item : ItemRec) : String :=
  item.item_type ++
    ("|" ++ toString item.item_number) ++
    ("|" ++ item.ean) ++
    ("|" ++ toString item.item_qty) ++
    ("|" ++ toString item.item_price_without_tax) ++
    ("|" ++ item.destination_address_code ++ "|") ++
    ("|" ++ toString item.qty) ++
    ("|" ++ item.tax_code)

/-- Embedding of `VtexClientOrder.get_file_items`. -/
def VtexClientOrder.get_file_items (items : List ItemRec) : List String :=
  items.map VtexClientOrderItem.fileLine

/-- Python `sep.join(parts)`. -/
def pyJoin (sep : String) : List String → String
  | [] => ""
  | a :: rest => rest.foldl (fun acc x => acc ++ sep ++ x) a

/-- `order.orderitem_set.all()`: the rows of the item table owned by the
order, in table order. -/
def orderitem_set (istore : ItemStore) (k : String) : List ItemRec :=
  istore.filter (fun r => r.order_number == k)

/-- Text written to `{order_number}.txt` by `create_order_files`: the
concatenated header segments (`writelines`), one newline, then the item
lines joined by newlines. -/
def orderFileContent (istore : ItemStore) (order : OrderRec) : String :=
  pyJoin "" (VtexClientOrder.get_file_headers order) ++ "\n" ++
    pyJoin "\n" (VtexClientOrder.get_file_items (orderitem_set istore order.order_number))

/-- The `paging` block of the list endpoint's response. -/
structure ApiPaging where
  currentPage : Nat
  pages : Nat
deriving DecidableEq, Repr

/-- Response of the summary-list endpoint: order ids plus paging data. -/
structure ApiListResponse where
  list : List String
  paging : ApiPaging
deriving DecidableEq, Repr

/-- The two remote endpoints used by `VtexClientOrder.get_orders`: the
summary list (taking the `f_creationDate` filter and the page number) and
the per-order detail; `Except.error` models a transport or
malformed-response exception. -/
structure VtexApi where
  listResp : String → Nat → Except String ApiListResponse
  detail : String → Except String RawOrder

/-- The hardcoded `f_creationDate` value that `get_orders` puts in the
querystring when none is supplied. -/
def default_f_creationDate : String :=
  "creationDate:[2016-01-01T02:00:00.000Z TO 2021-01-01T01:59:59.999Z]"

/-- The per-summary detail fetches of `get_orders` (the list comprehension
over `order_list_api_response["list"]`): the first failing call aborts. -/
def detailAll (api : VtexApi) : List String → Except String (List RawOrder)
  | [] => Except.ok []
  | oid :: rest => do
    let order ← api.detail oid
    let orders ← detailAll api rest
    Except.ok (order :: orders)

/-- Embedding of `VtexClientOrder.get_orders`: fetch the summary page,
fetch every detail, and recurse to page `currentPage + 1` while
`currentPage < pages`, concatenating the results.  The Python recursion has
no fuel; the `fuel` argument only bounds the modelled call stack, and every
theorem below supplies enough fuel for it never to run out. -/
def VtexClientOrder.get_orders (api : VtexApi) (querystring : Option String) :
    Nat → Nat → Except String (List RawOrder)
  | 0, _ => Except.error "maximum recursion depth exceeded"
  | fuel + 1, page => do
    let qs := querystring.getD default_f_creationDate
    let resp ← api.listResp qs page
    let orders_list ← detailAll api resp.list
    if resp.paging.currentPage < resp.paging.pages then
      let rest ← VtexClientOrder.get_orders api querystring fuel (resp.paging.currentPage + 1)
      Except.ok (orders_list ++ rest)
    else
      Except.ok orders_list

/-- Embedding of `scripts/upload_orders_file_to_sftp.run` after the fetch:
`VtexClientOrder.factory` is applied to the slice `orders_from_api[0:3]`,
then `VtexClientOrderItem.factory` to the resulting rows, which are also the
orders handed to `upload_to_sftp` (returned as third component). -/
def runScript (orders_from_api : List RawOrder) (store : OrderStore) (istore : ItemStore) :
    Option (OrderStore × ItemStore × List OrderRec) := do
  let (store1, orders_from_db) ← VtexClientOrder.factory (orders_from_api.take 3) store
  let (istore1, _) := VtexClientOrderItem.factory orders_from_db istore
  pure (store1, istore1, orders_from_db)

/-- Specification-side description of one mapped order item (§4.2 item
mapping): `item_number` is the 1-based position `idx + 1`, quantity and
floor-divided price come from the raw item, and the remaining fields are the
documented constants. -/
def specOrderItem (order_number : String) (idx : Nat) (item : RawItem) : ItemRec :=
  { order_number := order_number,
    item_type := "D",
    item_number := Int.ofNat (idx + 1),
    ean := item.ean,
    item_qty := item.quantity,
    item_price_without_tax := Int.fdiv item.price 100,
    destination_address_code := "",
    qty := 0,
    tax_code := "001" }

/-- Specification-side item list: one `specOrderItem` per raw item, in list
order, with consecutive positions starting at `idx`. -/
def specOrderItems (order_number : String) : Nat → List RawItem → List ItemRec
  | _, [] => []
  | idx, item :: rest =>
    specOrderItem order_number idx item :: specOrderItems order_number (idx + 1) rest

/-- Specification-side item line (§4.4): eight pipe-joined fields with the
doubled pipe separator after `destination_address_code`. -/
def specItemLine (item : ItemRec) : String :=
  item.item_type ++ "|" ++ toString item.item_number ++ "|" ++ item.ean ++ "|" ++
    toString item.item_qty ++ "|" ++ toString item.item_price_without_tax ++ "|" ++
    item.destination_address_code ++ "||" ++ toString item.qty ++ "|" ++ item.tax_code

/-- Sample shipping address used by concrete witnesses (the spec's §8
address-concatenation fixture: empty complement, absent reference). -/
def sampleAddress : RawAddress :=
  { street := some "Main", number := some "42", complement := some "",
    neighborhood := some "Centro", city := some "Bogota", reference := none,
    postalCode := some "11111" }

/-- Sample raw order document with the given order id. -/
def mkSampleRaw (oid : String) : RawOrder :=
  { orderId := oid,
    creationDate := "2021-03-04T10:15:30.123Z",
    clientProfileData :=
      { firstName := "Jane", lastName := "Doe", document := "CC123",
        phone := "555", email := "jane@example.com" },
    shippingData :=
      { selectedAddresses := [sampleAddress],
        logisticsInfo := [{ shippingEstimateDate := "2021-03-10T00:00:00.000Z" }] },
    items := [{ ean := "7701", quantity := 2, price := 35990 },
              { ean := "7702", quantity := 1, price := 10050 }] }

/-- Sample persisted order row used by concrete witnesses. -/
def sampleOrder : OrderRec :=
  { order_type := "H",
    client_code := "CT0000344",
    file_type := "E-COMM",
    company_code := "120",
    order_created_at := some ⟨2021, 3, 4, 10, 15, 30, 0⟩,
    shipping_stimate_date := some ⟨2021, 3, 10, 0, 0, 0, 0⟩,
    currency := "COP",
    buyer_fullname := "Jane Doe",
    buyer_document := "CC123",
    buyer_phone := "555",
    buyer_email := "jane@example.com",
    shipping_address := "Main 42 Centro",
    shipping_address_city := some "Bogota",
    shipping_address_reference := "",
    shipping_address_zip := some "11111",
    warehouse_code := "CM0000001",
    order_number := "o1",
    sell_type := "V010",
    sell_type_code := "222",
    payment_proof := "",
    seller_code := "V02011",
    route_text_code := "",
    from_api := mkSampleRaw "o1" }

/-- The `defaults` dictionary that `mkOrderDefaults` produces for
`mkSampleRaw "o5"`, used by the C5 witness. -/
def c5SampleDefaults : OrderDefaults :=
  { order_created_at := ⟨2021, 3, 4, 10, 15, 30, 0⟩,
    shipping_stimate_date := ⟨2021, 3, 10, 0, 0, 0, 0⟩,
    buyer_fullname := "Jane Doe",
    buyer_document := "CC123",
    buyer_phone := "555",
    buyer_email := "jane@example.com",
    shipping_address := "Main 42 Centro",
    shipping_address_city := some "Bogota",
    shipping_address_reference := "",
    shipping_address_zip := some "11111",
    order_number := "o5",
    route_text_code := "",
    from_api := mkSampleRaw "o5" }

/-- Instrumented API whose list endpoint echoes the received filter string
back as the only order id of a single page: the order ids returned by
`get_orders` then reveal which filter the fetch actually sent. -/
def probeApi : VtexApi :=
  { listResp := fun qs _ => Except.ok { list := [qs], paging := { currentPage := 1, pages := 1 } },
    detail := fun oid => Except.ok (mkSampleRaw oid) }

/-- Honest three-page API used by the pagination witness: page `p` of 3
holds the single order id `"o<p>"`. -/
def threePageApi : VtexApi :=
  { listResp := fun _ p =>
      Except.ok { list := ["o" ++ toString p], paging := { currentPage := p, pages := 3 } },
    detail := fun oid => Except.ok (mkSampleRaw oid) }

/-- API used by the error witness: page 1 of 3 succeeds, page 2 fails with a
transport error. -/
def failingPageApi : VtexApi :=
  { listResp := fun _ p =>
      if p ≤ 1 then
        Except.ok { list := ["o1"], paging := { currentPage := p, pages := 3 } }
      else Except.error "boom",
    detail := fun oid => Except.ok (mkSampleRaw oid) }

theorem takeWhile_no_dot (l : List Char) (h : ∀ c ∈ l, c ≠ '.') :
    l.takeWhile (fun c => c != '.') = l := by
  induction l with
  | nil => rfl
  | cons c t ih =>
    have hc : c ≠ '.' := h c (List.mem_cons_self c t)
    simp only [List.takeWhile_cons]
    rw [if_pos (by simpa using hc)]
    rw [ih (fun x hx => h x (List.mem_cons_of_mem c hx))]

theorem takeWhile_until_dot (l rest : List Char) (h : ∀ c ∈ l, c ≠ '.') :
    (l ++ '.' :: rest).takeWhile (fun c => c != '.') = l := by
  induction l with
  | nil => simp [List.takeWhile_cons]
  | cons c t ih =>
    have hc : c ≠ '.' := h c (List.mem_cons_self c t)
    simp only [List.cons_append, List.takeWhile_cons]
    rw [if_pos (by simpa using hc)]
    rw [ih (fun x hx => h x (List.mem_cons_of_mem c hx))]

/-- C7: for every remote timestamp string, `ws_strptime` parses exactly the
part before the first `'.'` with format `YYYY-MM-DDTHH:MM:SS` (fractional
seconds and timezone suffix discarded), and in particular
`"2021-03-04T10:15:30.123Z"` parses to the timestamp 2021-03-04 10:15:30. -/
theorem c7_ws_strptime_splits_on_dot :
    (∀ s frac : String, (∀ c ∈ s.data, c ≠ '.') →
      Order.ws_strptime (s ++ "." ++ frac) = strptimeYmdHms s.data ∧
      Order.ws_strptime s = strptimeYmdHms s.data) ∧
    Order.ws_strptime "2021-03-04T10:15:30.123Z" = some ⟨2021, 3, 4, 10, 15, 30, 0⟩ := by
  refine ⟨?_, by decide⟩
  intro s frac h
  constructor
  · have hdata : (s ++ "." ++ frac).data = s.data ++ '.' :: frac.data := by
      rw [String.data_append, String.data_append]
      simp
    unfold Order.ws_strptime takeBeforeDot
    rw [hdata, takeWhile_until_dot s.data frac.data h]
  · unfold Order.ws_strptime takeBeforeDot
    rw [takeWhile_no_dot s.data h]

/-- Witness for C7 at the spec's concrete fixture. -/
theorem c7_ws_strptime_splits_on_dot_witness :
    Order.ws_strptime ("2021-03-04T10:15:30" ++ "." ++ "123Z") =
      strptimeYmdHms "2021-03-04T10:15:30".data :=
  (c7_ws_strptime_splits_on_dot.1 "2021-03-04T10:15:30" "123Z" (by decide)).1

theorem truthyVals_eq_filter (l : List (Option String)) :
    truthyVals l = (l.filterMap id).filter (fun s => s != "") := by
  induction l with
  | nil => rfl
  | cons o t ih =>
    cases o with
    | none => simpa [truthyVals] using ih
    | some s =>
      by_cases hs : s = ""
      · subst hs
        simpa [truthyVals] using ih
      · simp only [truthyVals, if_neg hs, List.filterMap_cons, id]
        rw [List.filter_cons]
        rw [if_pos (by simpa using hs)]
        rw [ih]

/-- C8: the shipping address fields come from the first selected shipping
address; `info` is the space-joined concatenation of exactly the present and
non-empty fields among street, number, complement, neighborhood, in that
order, and the reference defaults to the empty string when absent.  The
spec's fixture (street `"Main"`, number `"42"`, empty complement,
neighborhood `"Centro"`, absent reference) yields `"Main 42 Centro"`. -/
theorem c8_shipping_address_fields :
    (∀ (raw : RawOrder) (addr : RawAddress) (rest : List RawAddress),
      raw.shippingData.selectedAddresses = addr :: rest →
      VtexClientOrder.format_ws_address_data raw = some
        { city := addr.city,
          info := String.intercalate " "
            (((([addr.street, addr.number, addr.complement, addr.neighborhood] :
                List (Option String))).filterMap id).filter (fun s => s != "")),
          reference := addr.reference.getD "",
          postal_code := addr.postalCode }) ∧
    VtexClientOrder.format_ws_address_data (mkSampleRaw "c8") =
      some { city := some "Bogota", info := "Main 42 Centro", reference := "",
             postal_code := some "11111" } := by
  constructor
  · intro raw addr rest h
    unfold VtexClientOrder.format_ws_address_data
    rw [h]
    dsimp only
    rw [truthyVals_eq_filter]
  · decide

/-- Witness for C8 at a concrete raw order. -/
theorem c8_shipping_address_fields_witness :
    VtexClientOrder.format_ws_address_data (mkSampleRaw "w8") =
      some { city := some "Bogota", info := "Main 42 Centro", reference := "",
             postal_code := some "11111" } :=
  (c8_shipping_address_fields.1 (mkSampleRaw "w8") sampleAddress [] rfl).trans (by decide)

/-- C1 counterexample: on a concrete order the header formatter returns a
list whose length is not 15 (it has 16 segments). -/
theorem c1_fifteen_segments_counterexample :
    (VtexClientOrder.get_file_headers sampleOrder).length ≠ 15 := by decide

/-- C1 (amended): for every order record, `get_file_headers` returns exactly
16 segments, in the fixed field order of §4.4 (type, client code, file type,
company code, formatted order date, formatted shipping date, currency,
composite buyer/address block, literal `"1"`, warehouse code, order number,
composite localization block, composite sell-type/payment block, seller
code, route code, buyer email), each segment after the first prefixed with a
pipe. -/
theorem c1_header_sixteen_segments (order : OrderRec) :
    (VtexClientOrder.get_file_headers order).length = 16 ∧
    (VtexClientOrder.get_file_headers order).head? = some order.order_type ∧
    (∀ seg ∈ (VtexClientOrder.get_file_headers order).drop 1,
      seg.data.head? = some '|') ∧
    VtexClientOrder.get_file_headers order =
      [ order.order_type,
        "|" ++ order.client_code,
        "|" ++ order.file_type,
        "|" ++ order.company_code,
        "|" ++ Order.erp_strftime order.order_created_at,
        "|" ++ Order.erp_strftime order.shipping_stimate_date,
        "|" ++ order.currency,
        "|" ++ order.buyer_fullname ++ "/" ++ order.buyer_document ++ "/" ++
          pyStrOpt order.shipping_address_city ++ "/" ++ order.shipping_address ++ "/" ++
          order.buyer_phone ++ "/" ++ order.shipping_address_reference,
        "|1",
        "|" ++ order.warehouse_code,
        "|" ++ order.order_number,
        "|?," ++ order.buyer_document ++ ",?," ++ order.buyer_fullname ++ "," ++
          order.sell_type ++ "," ++ pyStrOpt order.shipping_address_zip,
        "|" ++ order.sell_type_code ++ "," ++ order.payment_proof,
        "|" ++ order.seller_code,
        "|" ++ order.route_text_code,
        "|" ++ order.buyer_email ] := by
  refine ⟨rfl, rfl, ?_, rfl⟩
  intro seg hseg
  simp only [VtexClientOrder.get_file_headers, List.drop_succ_cons, List.drop_zero,
    List.mem_cons, List.not_mem_nil, or_false] at hseg
  rcases hseg with rfl|rfl|rfl|rfl|rfl|rfl|rfl|rfl|rfl|rfl|rfl|rfl|rfl|rfl|rfl <;> rfl

/-- C2 (code divergence): with no explicit window, the fetch does not use a
last-hour creation-date filter.  First, `get_orders_filter_hours_range` with
both arguments defaulted at time `now` = 2021-03-04T10:15:30 renders `from`
as `now` and `to` as `now` minus one hour — the inverse of the claimed
window.  Second, `get_orders` called with no querystring sends the hardcoded
2016–2021 filter to the API (observed via an instrumented API that echoes
the received filter back as the order id), and never calls the hours-range
helper. -/
theorem c2_default_window_divergence :
    Order.get_orders_filter_hours_range ⟨2021, 3, 4, 10, 15, 30, 0⟩ none none =
      "creationDate:[2021-03-04T10:15:30.000000Z TO 2021-03-04T09:15:30.000000Z]" ∧
    Order.get_orders_filter_hours_range ⟨2021, 3, 4, 10, 15, 30, 0⟩ none none ≠
      "creationDate:[2021-03-04T09:15:30.000000Z TO 2021-03-04T10:15:30.000000Z]" ∧
    VtexClientOrder.get_orders probeApi none 1 1 =
      Except.ok [mkSampleRaw default_f_creationDate] :=
  ⟨by decide, by decide, rfl⟩

theorem except_bind_ok {α β : Type} (a : α) (f : α → Except String β) :
    (Except.ok a >>= f) = f a := rfl

theorem except_bind_error {α β : Type} (e : String) (f : α → Except String β) :
    ((Except.error e : Except String α) >>= f) = Except.error e := rfl

theorem detailAll_ok (api : VtexApi) (det : String → RawOrder)
    (hd : ∀ oid, api.detail oid = Except.ok (det oid)) (l : List String) :
    detailAll api l = Except.ok (l.map det) := by
  induction l with
  | nil => rfl
  | cons oid rest ih =>
    simp only [detailAll]
    rw [hd oid, except_bind_ok, ih, except_bind_ok]
    rfl

theorem detailAll_exists_ok (api : VtexApi) (l : List String)
    (h : ∀ x ∈ l, ∃ y, api.detail x = Except.ok y) :
    ∃ l', detailAll api l = Except.ok l' := by
  induction l with
  | nil => exact ⟨[], rfl⟩
  | cons x rest ih =>
    obtain ⟨y, hy⟩ := h x (List.mem_cons_self x rest)
    obtain ⟨l', hl'⟩ := ih (fun z hz => h z (List.mem_cons_of_mem x hz))
    refine ⟨y :: l', ?_⟩
    simp only [detailAll]
    rw [hy, except_bind_ok, hl', except_bind_ok]

theorem detailAll_error (api : VtexApi) (pre : List String) (bad : String)
    (post : List String) (e : String)
    (hpre : ∀ x ∈ pre, ∃ y, api.detail x = Except.ok y)
    (hbad : api.detail bad = Except.error e) :
    detailAll api (pre ++ bad :: post) = Except.error e := by
  induction pre with
  | nil =>
    simp only [List.nil_append, detailAll]
    rw [hbad, except_bind_error]
  | cons x rest ih =>
    obtain ⟨y, hy⟩ := hpre x (List.mem_cons_self x rest)
    simp only [List.cons_append, detailAll]
    rw [hy, except_bind_ok,
      show (rest.append (bad :: post)) = rest ++ bad :: post from rfl,
      ih (fun z hz => hpre z (List.mem_cons_of_mem x hz)), except_bind_error]

/-- C3: against an API that, for page `p`, reports `currentPage = p` and a
fixed page count `P` with summary ids `ids p`, and whose detail endpoint
maps id `oid` to `det oid`, `get_orders` started at any page `p ≤ P` (with
enough fuel to cover the real recursion) retrieves the detail of every
summary and returns the concatenation of all pages `p..P` in page order,
then in-page order. -/
theorem c3_pagination_concatenates_all_pages
    (api : VtexApi) (querystring : Option String) (ids : Nat → List String)
    (det : String → RawOrder) (P : Nat)
    (hl : ∀ p, api.listResp (querystring.getD default_f_creationDate) p =
      Except.ok { list := ids p, paging := { currentPage := p, pages := P } })
    (hd : ∀ oid, api.detail oid = Except.ok (det oid)) :
    ∀ fuel p, p ≤ P → P + 1 - p ≤ fuel →
      VtexClientOrder.get_orders api querystring fuel p =
        Except.ok (((List.range' p (P + 1 - p)).map (fun j => (ids j).map det)).flatten) := by
  intro fuel
  induction fuel with
  | zero => intro p hp hf; exact absurd hf (by omega)
  | succ n ih =>
    intro p hp hf
    simp only [VtexClientOrder.get_orders]
    rw [hl p, except_bind_ok]
    dsimp only
    rw [detailAll_ok api det hd (ids p), except_bind_ok]
    by_cases hpP : p < P
    · rw [if_pos hpP, ih (p + 1) (by omega) (by omega), except_bind_ok]
      have h1 : P + 1 - p = (P - p) + 1 := by omega
      have h2 : P + 1 - (p + 1) = P - p := by omega
      rw [h2, h1]
      simp [List.range']
    · rw [if_neg hpP]
      have h1 : P + 1 - p = 1 := by omega
      rw [h1]
      simp [List.range']

/-- Witness for C3: a fake API reporting `pages = 3`, with one order per
page, yields the orders of all 3 pages in page order. -/
theorem c3_pagination_concatenates_all_pages_witness :
    VtexClientOrder.get_orders threePageApi (some "f") 3 1 =
      Except.ok [mkSampleRaw "o1", mkSampleRaw "o2", mkSampleRaw "o3"] :=
  (c3_pagination_concatenates_all_pages threePageApi (some "f")
      (fun p => ["o" ++ toString p]) mkSampleRaw 3 (fun _ => rfl) (fun _ => rfl)
      3 1 (by decide) (by decide)).trans rfl

/-- C4: if, along the chain of pages visited from the starting page, every
page below `k` succeeds (list fetch and all detail fetches) and at page `k`
either the list fetch fails with error `e` or some order's detail fetch
fails with error `e` (after successful details before it), then the whole
invocation of `get_orders` fails with exactly that error and returns no
orders at all — no partial result from the pages already fetched. -/
theorem c4_error_aborts_whole_invocation
    (api : VtexApi) (querystring : Option String) (ids : Nat → List String)
    (P k : Nat) (e : String)
    (hok : ∀ j, j < k → api.listResp (querystring.getD default_f_creationDate) j =
      Except.ok { list := ids j, paging := { currentPage := j, pages := P } })
    (hdet : ∀ j, j < k → ∀ x ∈ ids j, ∃ y, api.detail x = Except.ok y)
    (hcap : k ≤ P)
    (hfail : api.listResp (querystring.getD default_f_creationDate) k = Except.error e ∨
      ∃ resp pre bad post,
        api.listResp (querystring.getD default_f_creationDate) k = Except.ok resp ∧
        resp.list = pre ++ bad :: post ∧
        (∀ x ∈ pre, ∃ y, api.detail x = Except.ok y) ∧
        api.detail bad = Except.error e) :
    ∀ fuel p, p ≤ k → k + 1 - p ≤ fuel →
      VtexClientOrder.get_orders api querystring fuel p = Except.error e ∧
      ∀ l, VtexClientOrder.get_orders api querystring fuel p ≠ Except.ok l := by
  intro fuel
  induction fuel with
  | zero => intro p hp hf; exact absurd hf (by omega)
  | succ n ih =>
    intro p hp hf
    have main : VtexClientOrder.get_orders api querystring (n + 1) p = Except.error e := by
      simp only [VtexClientOrder.get_orders]
      by_cases hpk : p < k
      · rw [hok p hpk, except_bind_ok]
        dsimp only
        obtain ⟨dl, hdl⟩ := detailAll_exists_ok api (ids p) (hdet p hpk)
        rw [hdl, except_bind_ok]
        rw [if_pos (lt_of_lt_of_le hpk hcap)]
        rw [(ih (p + 1) (by omega) (by omega)).1, except_bind_error]
      · have hpk' : p = k := by omega
        subst hpk'
        rcases hfail with h1 | ⟨resp, pre, bad, post, h1, h2, h3, h4⟩
        · rw [h1, except_bind_error]
        · rw [h1, except_bind_ok]
          rw [show resp.list = pre ++ bad :: post from h2]
          rw [detailAll_error api pre bad post e h3 h4, except_bind_error]
    refine ⟨main, fun l => ?_⟩
    rw [main]
    simp

/-- Witness for C4: with page 1 of 3 succeeding and the list fetch of page 2
failing with `"boom"`, the whole invocation returns that error (and no
orders). -/
theorem c4_error_aborts_whole_invocation_witness :
    VtexClientOrder.get_orders failingPageApi (some "f") 2 1 = Except.error "boom" :=
  (c4_error_aborts_whole_invocation failingPageApi (some "f") (fun _ => ["o1"])
      3 2 "boom"
      (fun j hj => by
        have hj' : j ≤ 1 := by omega
        simp [failingPageApi, hj'])
      (fun j _ x _ => ⟨mkSampleRaw x, rfl⟩)
      (by decide)
      (Or.inl rfl)
      2 1 (by decide) (by decide)).1

theorem countP_replaceFirstOrder (s : OrderStore) (k k' : String) (r' : OrderRec)
    (hr' : r'.order_number = k) :
    (replaceFirstOrder s k r').countP (fun r => r.order_number == k') =
      s.countP (fun r => r.order_number == k') := by
  induction s with
  | nil => rfl
  | cons r rest ih =>
    by_cases h : r.order_number == k
    · have hr : r.order_number = k := by simpa using h
      simp only [replaceFirstOrder, if_pos h]
      rw [List.countP_cons, List.countP_cons, hr, hr']
    · simp only [replaceFirstOrder, if_neg h]
      rw [List.countP_cons, List.countP_cons, ih]

theorem findOrder_replaceFirstOrder (s : OrderStore) (k : String) (r0 r' : OrderRec)
    (hs : findOrder s k = some r0) (hr' : r'.order_number = k) :
    findOrder (replaceFirstOrder s k r') k = some r' := by
  induction s with
  | nil => simp [findOrder] at hs
  | cons r rest ih =>
    by_cases h : r.order_number == k
    · simp only [replaceFirstOrder, if_pos h]
      exact List.find?_cons_of_pos _ (by simpa using hr')
    · simp only [replaceFirstOrder, if_neg h]
      unfold findOrder at hs ⊢
      rw [@List.find?_cons_of_neg _ (fun x => x.order_number == k) r rest h] at hs
      rw [@List.find?_cons_of_neg _ (fun x => x.order_number == k) r
        (replaceFirstOrder rest k r') h]
      exact ih hs

theorem replaceFirstOrder_self (s : OrderStore) (k : String) (r0 : OrderRec)
    (hs : findOrder s k = some r0) : replaceFirstOrder s k r0 = s := by
  induction s with
  | nil => rfl
  | cons r rest ih =>
    by_cases h : r.order_number == k
    · unfold findOrder at hs
      rw [@List.find?_cons_of_pos _ (fun x => x.order_number == k) r rest h] at hs
      obtain rfl : r = r0 := by simpa using hs
      simp only [replaceFirstOrder, if_pos h]
    · unfold findOrder at hs
      rw [@List.find?_cons_of_neg _ (fun x => x.order_number == k) r rest h] at hs
      simp only [replaceFirstOrder, if_neg h]
      rw [ih hs]

theorem findOrder_append_new (s : OrderStore) (k : String) (r : OrderRec)
    (hs : findOrder s k = none) (hr : r.order_number = k) :
    findOrder (s ++ [r]) k = some r := by
  unfold findOrder at hs ⊢
  rw [List.find?_append, hs, Option.none_or]
  exact List.find?_cons_of_pos _ (by simpa using hr)

theorem countP_eq_zero_of_findOrder_none (s : OrderStore) (k : String)
    (hs : findOrder s k = none) :
    s.countP (fun r => r.order_number == k) = 0 :=
  List.countP_eq_zero.mpr (List.find?_eq_none.mp hs)

theorem mkOrderDefaults_eq (raw : RawOrder) :
    mkOrderDefaults raw = (VtexClientOrder.format_ws_address_data raw).bind (fun address =>
      (Order.ws_strptime raw.creationDate).bind (fun created =>
        (raw.shippingData.logisticsInfo.head?).bind (fun li =>
          (Order.ws_strptime li.shippingEstimateDate).bind (fun shipping =>
            some
              { order_created_at := created,
                shipping_stimate_date := shipping,
                buyer_fullname := raw.clientProfileData.firstName ++ " " ++
                  raw.clientProfileData.lastName,
                buyer_document := raw.clientProfileData.document,
                buyer_phone := raw.clientProfileData.phone,
                buyer_email := raw.clientProfileData.email,
                shipping_address := address.info,
                shipping_address_city := address.city,
                shipping_address_reference := address.reference,
                shipping_address_zip := address.postal_code,
                order_number := raw.orderId,
                route_text_code := "",
                from_api := raw })))) := rfl

theorem mkOrderDefaults_key_fields (raw : RawOrder) (d : OrderDefaults)
    (h : mkOrderDefaults raw = some d) :
    d.order_number = raw.orderId ∧ d.route_text_code = "" := by
  rw [mkOrderDefaults_eq] at h
  cases had : VtexClientOrder.format_ws_address_data raw with
  | none => rw [had, Option.none_bind] at h; exact absurd h (by simp)
  | some ad =>
    rw [had] at h
    simp only [Option.some_bind] at h
    cases hcr : Order.ws_strptime raw.creationDate with
    | none => rw [hcr, Option.none_bind] at h; exact absurd h (by simp)
    | some cr =>
      rw [hcr] at h
      simp only [Option.some_bind] at h
      cases hli : raw.shippingData.logisticsInfo.head? with
      | none => rw [hli, Option.none_bind] at h; exact absurd h (by simp)
      | some li =>
        rw [hli] at h
        simp only [Option.some_bind] at h
        cases hsh : Order.ws_strptime li.shippingEstimateDate with
        | none => rw [hsh, Option.none_bind] at h; exact absurd h (by simp)
        | some sh =>
          rw [hsh] at h
          simp only [Option.some_bind, Option.some.injEq] at h
          exact ⟨by rw [← h], by rw [← h]⟩

theorem applyOrderDefaults_idem (r : OrderRec) (d : OrderDefaults) :
    applyOrderDefaults (applyOrderDefaults r d) d = applyOrderDefaults r d := rfl

theorem applyOrderDefaults_new (d : OrderDefaults) (hroute : d.route_text_code = "") :
    applyOrderDefaults (newVtexClientOrder d) d = newVtexClientOrder d := by
  simp only [applyOrderDefaults, newVtexClientOrder]
  rw [hroute]

theorem factory_singleton_eq (raw : RawOrder) (s : OrderStore) :
    VtexClientOrder.factory [raw] s = (mkOrderDefaults raw).bind (fun d =>
      some ((orderUpdateOrCreate s raw.orderId d).1,
        [(orderUpdateOrCreate s raw.orderId d).2])) := rfl

/-- C5: order ingestion is an idempotent upsert keyed by `order_number`:
given a well-formed store (at most one row per key), running
`VtexClientOrder.factory` on a mappable raw order leaves exactly one row
for that `order_number`, and running it again on the same raw input returns
the very same store and the very same row values — fields are updated in
place and no duplicate is ever created. -/
theorem c5_order_upsert_idempotent (s : OrderStore) (raw : RawOrder) (d : OrderDefaults)
    (hs : ∀ k, s.countP (fun r => r.order_number == k) ≤ 1)
    (hd : mkOrderDefaults raw = some d) :
    VtexClientOrder.factory [raw] s =
      some ((orderUpdateOrCreate s raw.orderId d).1,
        [(orderUpdateOrCreate s raw.orderId d).2]) ∧
    ((orderUpdateOrCreate s raw.orderId d).1).countP
      (fun r => r.order_number == raw.orderId) = 1 ∧
    VtexClientOrder.factory [raw] ((orderUpdateOrCreate s raw.orderId d).1) =
      some ((orderUpdateOrCreate s raw.orderId d).1,
        [(orderUpdateOrCreate s raw.orderId d).2]) := by
  have hkey : d.order_number = raw.orderId := (mkOrderDefaults_key_fields raw d hd).1
  have hroute : d.route_text_code = "" := (mkOrderDefaults_key_fields raw d hd).2
  have hfirst : VtexClientOrder.factory [raw] s =
      some ((orderUpdateOrCreate s raw.orderId d).1,
        [(orderUpdateOrCreate s raw.orderId d).2]) := by
    rw [factory_singleton_eq, hd, Option.some_bind]
  refine ⟨hfirst, ?_, ?_⟩
  · cases hfind : findOrder s raw.orderId with
    | none =>
      have hU : orderUpdateOrCreate s raw.orderId d =
          (s ++ [newVtexClientOrder d], newVtexClientOrder d) := by
        unfold orderUpdateOrCreate
        rw [hfind]
      rw [hU, List.countP_append, countP_eq_zero_of_findOrder_none s raw.orderId hfind]
      have hnk : (newVtexClientOrder d).order_number = raw.orderId := hkey
      simp [List.countP_cons, hnk]
    | some r0 =>
      have hU : orderUpdateOrCreate s raw.orderId d =
          (replaceFirstOrder s raw.orderId (applyOrderDefaults r0 d),
            applyOrderDefaults r0 d) := by
        unfold orderUpdateOrCreate
        rw [hfind]
      have hr' : (applyOrderDefaults r0 d).order_number = raw.orderId := hkey
      rw [hU]
      have hle := hs raw.orderId
      have hfind' : List.find? (fun x => x.order_number == raw.orderId) s = some r0 := hfind
      have hpos : 0 < s.countP (fun r => r.order_number == raw.orderId) :=
        List.countP_pos_iff.mpr
          ⟨r0, List.mem_of_find?_eq_some hfind',
            @List.find?_some _ (fun x => x.order_number == raw.orderId) r0 s hfind'⟩
      have h1 : s.countP (fun r => r.order_number == raw.orderId) = 1 := by omega
      rw [countP_replaceFirstOrder s raw.orderId raw.orderId _ hr', h1]
  · rw [factory_singleton_eq, hd, Option.some_bind]
    cases hfind : findOrder s raw.orderId with
    | none =>
      have hU : orderUpdateOrCreate s raw.orderId d =
          (s ++ [newVtexClientOrder d], newVtexClientOrder d) := by
        unfold orderUpdateOrCreate
        rw [hfind]
      have hnk : (newVtexClientOrder d).order_number = raw.orderId := hkey
      have hfind2 : findOrder (s ++ [newVtexClientOrder d]) raw.orderId =
          some (newVtexClientOrder d) :=
        findOrder_append_new s raw.orderId _ hfind hnk
      have hU2 : orderUpdateOrCreate (s ++ [newVtexClientOrder d]) raw.orderId d =
          (s ++ [newVtexClientOrder d], newVtexClientOrder d) := by
        unfold orderUpdateOrCreate
        rw [hfind2]
        dsimp only
        rw [applyOrderDefaults_new d hroute]
        rw [replaceFirstOrder_self _ _ _ hfind2]
      rw [hU, hU2]
    | some r0 =>
      have hU : orderUpdateOrCreate s raw.orderId d =
          (replaceFirstOrder s raw.orderId (applyOrderDefaults r0 d),
            applyOrderDefaults r0 d) := by
        unfold orderUpdateOrCreate
        rw [hfind]
      have hr' : (applyOrderDefaults r0 d).order_number = raw.orderId := hkey
      have hfind2 : findOrder (replaceFirstOrder s raw.orderId (applyOrderDefaults r0 d))
          raw.orderId = some (applyOrderDefaults r0 d) :=
        findOrder_replaceFirstOrder s raw.orderId r0 _ hfind hr'
      have hU2 : orderUpdateOrCreate
          (replaceFirstOrder s raw.orderId (applyOrderDefaults r0 d)) raw.orderId d =
          (replaceFirstOrder s raw.orderId (applyOrderDefaults r0 d),
            applyOrderDefaults r0 d) := by
        unfold orderUpdateOrCreate
        rw [hfind2]
        dsimp only
        rw [applyOrderDefaults_idem]
        rw [replaceFirstOrder_self _ _ _ hfind2]
      rw [hU, hU2]

/-- Witness for C5 at a concrete raw order and the empty store. -/
theorem c5_order_upsert_idempotent_witness :
    VtexClientOrder.factory [mkSampleRaw "o5"] [] =
      some ((orderUpdateOrCreate [] (mkSampleRaw "o5").orderId c5SampleDefaults).1,
        [(orderUpdateOrCreate [] (mkSampleRaw "o5").orderId c5SampleDefaults).2]) ∧
    ((orderUpdateOrCreate [] (mkSampleRaw "o5").orderId c5SampleDefaults).1).countP
      (fun r => r.order_number == (mkSampleRaw "o5").orderId) = 1 ∧
    VtexClientOrder.factory [mkSampleRaw "o5"]
        ((orderUpdateOrCreate [] (mkSampleRaw "o5").orderId c5SampleDefaults).1) =
      some ((orderUpdateOrCreate [] (mkSampleRaw "o5").orderId c5SampleDefaults).1,
        [(orderUpdateOrCreate [] (mkSampleRaw "o5").orderId c5SampleDefaults).2]) :=
  c5_order_upsert_idempotent [] (mkSampleRaw "o5") c5SampleDefaults
    (fun _ => by simp) (by decide)

theorem mem_replaceFirstItem (s : ItemStore) (k e : String) (r' x : ItemRec)
    (hx : x ∈ replaceFirstItem s k e r') : x ∈ s ∨ x = r' := by
  induction s with
  | nil => simp [replaceFirstItem] at hx
  | cons r rest ih =>
    by_cases h : r.order_number == k && r.ean == e
    · simp only [replaceFirstItem, if_pos h] at hx
      rcases List.mem_cons.mp hx with h1 | h1
      · exact Or.inr h1
      · exact Or.inl (List.mem_cons_of_mem r h1)
    · simp only [replaceFirstItem, if_neg h] at hx
      rcases List.mem_cons.mp hx with h1 | h1
      · exact Or.inl (h1 ▸ List.mem_cons_self r rest)
      · rcases ih h1 with h2 | h2
        · exact Or.inl (List.mem_cons_of_mem r h2)
        · exact Or.inr h2

theorem specOrderItem_constants (onum : String) (idx : Nat) (item : RawItem) :
    (specOrderItem onum idx item).item_type = "D" ∧
    (specOrderItem onum idx item).qty = 0 ∧
    (specOrderItem onum idx item).destination_address_code = "" ∧
    (specOrderItem onum idx item).tax_code = "001" :=
  ⟨rfl, rfl, rfl, rfl⟩

theorem specOrderItems_length (onum : String) :
    ∀ (idx : Nat) (items : List RawItem),
      (specOrderItems onum idx items).length = items.length := by
  intro idx items
  induction items generalizing idx with
  | nil => rfl
  | cons item rest ih => simp [specOrderItems, ih]

theorem factoryItems_spec (onum : String) (items : List RawItem) :
    ∀ (idx : Nat) (s : ItemStore),
      (∀ r ∈ s, r.order_number = onum →
        r.item_type = "D" ∧ r.qty = 0 ∧ r.destination_address_code = "" ∧
          r.tax_code = "001") →
      (VtexClientOrderItem.factoryItems onum items idx s).2 =
        specOrderItems onum idx items := by
  induction items with
  | nil => intro idx s _; rfl
  | cons item rest ih =>
    intro idx s hinv
    cases hfind : findItem s onum item.ean with
    | none =>
      have hU : itemUpdateOrCreate s onum item.ean
          ⟨Int.ofNat (idx + 1), item.quantity, Int.fdiv item.price 100⟩ =
          (s ++ [newVtexClientOrderItem onum item.ean
            ⟨Int.ofNat (idx + 1), item.quantity, Int.fdiv item.price 100⟩],
           newVtexClientOrderItem onum item.ean
            ⟨Int.ofNat (idx + 1), item.quantity, Int.fdiv item.price 100⟩) := by
        unfold itemUpdateOrCreate
        rw [hfind]
      have hnewspec : newVtexClientOrderItem onum item.ean
          ⟨Int.ofNat (idx + 1), item.quantity, Int.fdiv item.price 100⟩ =
          specOrderItem onum idx item := rfl
      have hinv' : ∀ r ∈ s ++ [newVtexClientOrderItem onum item.ean
          ⟨Int.ofNat (idx + 1), item.quantity, Int.fdiv item.price 100⟩],
          r.order_number = onum →
          r.item_type = "D" ∧ r.qty = 0 ∧ r.destination_address_code = "" ∧
            r.tax_code = "001" := by
        intro r hr hro
        rcases List.mem_append.mp hr with h1 | h1
        · exact hinv r h1 hro
        · obtain rfl : r = newVtexClientOrderItem onum item.ean
              ⟨Int.ofNat (idx + 1), item.quantity, Int.fdiv item.price 100⟩ := by
            simpa using h1
          exact ⟨rfl, rfl, rfl, rfl⟩
      rw [hnewspec] at hinv'
      simp only [VtexClientOrderItem.factoryItems, specOrderItems]
      rw [hU]
      dsimp only
      rw [hnewspec]
      rw [ih (idx + 1) _ hinv']
    | some r0 =>
      have hfind' : List.find? (fun r => r.order_number == onum && r.ean == item.ean) s =
          some r0 := hfind
      have hp : (r0.order_number == onum && r0.ean == item.ean) = true :=
        @List.find?_some _ (fun r => r.order_number == onum && r.ean == item.ean) r0 s hfind'
      have hro : r0.order_number = onum := by
        have := (Bool.and_eq_true _ _).mp hp
        simpa using this.1
      have hre : r0.ean = item.ean := by
        have := (Bool.and_eq_true _ _).mp hp
        simpa using this.2
      obtain ⟨ht, hq, hdc, htx⟩ :=
        hinv r0 (List.mem_of_find?_eq_some hfind') hro
      have hrec : applyItemDefaults r0
          ⟨Int.ofNat (idx + 1), item.quantity, Int.fdiv item.price 100⟩ =
          specOrderItem onum idx item := by
        cases r0
        simp_all [applyItemDefaults, specOrderItem]
      have hU : itemUpdateOrCreate s onum item.ean
          ⟨Int.ofNat (idx + 1), item.quantity, Int.fdiv item.price 100⟩ =
          (replaceFirstItem s onum item.ean (specOrderItem onum idx item),
           specOrderItem onum idx item) := by
        unfold itemUpdateOrCreate
        rw [hfind]
        dsimp only
        rw [hrec]
      have hinv' : ∀ r ∈ replaceFirstItem s onum item.ean (specOrderItem onum idx item),
          r.order_number = onum →
          r.item_type = "D" ∧ r.qty = 0 ∧ r.destination_address_code = "" ∧
            r.tax_code = "001" := by
        intro r hr hro'
        rcases mem_replaceFirstItem s onum item.ean _ r hr with h1 | h1
        · exact hinv r h1 hro'
        · subst h1
          exact specOrderItem_constants onum idx item
      simp only [VtexClientOrderItem.factoryItems, specOrderItems]
      rw [hU]
      dsimp only
      rw [ih (idx + 1) _ hinv']

/-- C6: for every raw order, the item factory returns one `OrderItem` per
entry of the raw item list, in list order: position `i` (0-based) yields a
row with `item_number = i + 1`, `item_qty` the raw quantity,
`item_price_without_tax` the raw minor-units price floor-divided by 100,
`tax_code` fixed to `"001"` (19%), `item_type` fixed to `"D"`, `qty` fixed
to 0 and `destination_address_code` fixed to the empty string — provided
every pre-existing row of the order (rows of earlier ingestion runs) already
carries those constants. -/
theorem c6_item_factory_mapping (o : OrderRec) (istore : ItemStore)
    (hinv : ∀ r ∈ istore, r.order_number = o.order_number →
      r.item_type = "D" ∧ r.qty = 0 ∧ r.destination_address_code = "" ∧
        r.tax_code = "001") :
    (VtexClientOrderItem.factory [o] istore).2 =
      specOrderItems o.order_number 0 o.from_api.items ∧
    ((VtexClientOrderItem.factory [o] istore).2).length = o.from_api.items.length := by
  have h := factoryItems_spec o.order_number o.from_api.items 0 istore hinv
  have hmain : (VtexClientOrderItem.factory [o] istore).2 =
      specOrderItems o.order_number 0 o.from_api.items := by
    show (VtexClientOrderItem.factoryItems o.order_number o.from_api.items 0 istore).2
        ++ [] = _
    rw [List.append_nil, h]
  exact ⟨hmain, by rw [hmain, specOrderItems_length]⟩

/-- Witness for C6 at a concrete order and the empty item store. -/
theorem c6_item_factory_mapping_witness :
    (VtexClientOrderItem.factory [sampleOrder] []).2 =
      specOrderItems sampleOrder.order_number 0 sampleOrder.from_api.items ∧
    ((VtexClientOrderItem.factory [sampleOrder] []).2).length =
      sampleOrder.from_api.items.length :=
  c6_item_factory_mapping sampleOrder [] (fun r hr => absurd hr (List.not_mem_nil r))

theorem pyJoin_foldl_shift (sep : String) (t : List String) :
    ∀ c x : String,
      t.foldl (fun acc y => acc ++ sep ++ y) (c ++ x) =
        c ++ t.foldl (fun acc y => acc ++ sep ++ y) x := by
  induction t with
  | nil => intro c x; rfl
  | cons y t' ih =>
    intro c x
    simp only [List.foldl_cons]
    rw [String.append_assoc c x sep, String.append_assoc c (x ++ sep) y]
    exact ih c (x ++ sep ++ y)

theorem pyJoin_cons (sep a : String) (t : List String) (ht : t ≠ []) :
    pyJoin sep (a :: t) = a ++ sep ++ pyJoin sep t := by
  cases t with
  | nil => exact absurd rfl ht
  | cons x t' =>
    show (x :: t').foldl (fun acc y => acc ++ sep ++ y) a = _
    simp only [List.foldl_cons]
    rw [pyJoin_foldl_shift sep t' (a ++ sep) x]
    rfl

theorem fileLine_eq_specItemLine (item : ItemRec) :
    VtexClientOrderItem.fileLine item = specItemLine item := by
  have hpp : ("||" : String) = "|" ++ "|" := rfl
  simp only [VtexClientOrderItem.fileLine, specItemLine, hpp, String.append_assoc]

theorem specOrderItems_keys (onum : String) :
    ∀ (idx : Nat) (items : List RawItem),
      ∀ r ∈ specOrderItems onum idx items, r.order_number = onum := by
  intro idx items
  induction items generalizing idx with
  | nil => intro r hr; simp [specOrderItems] at hr
  | cons item rest ih =>
    intro r hr
    rcases List.mem_cons.mp hr with h1 | h1
    · subst h1; rfl
    · exact ih (idx + 1) r h1

theorem specOrderItems_numbers (onum : String) :
    ∀ (idx : Nat) (items : List RawItem),
      (specOrderItems onum idx items).map ItemRec.item_number =
        (List.range' (idx + 1) items.length).map Int.ofNat := by
  intro idx items
  induction items generalizing idx with
  | nil => rfl
  | cons item rest ih =>
    simp only [specOrderItems, List.map_cons, List.length_cons]
    rw [ih (idx + 1)]
    rfl

theorem factoryItems_store (onum : String) (items : List RawItem) :
    ∀ (idx : Nat) (s0 cs : ItemStore),
      (∀ r ∈ s0, r.order_number ≠ onum) →
      (∀ r ∈ cs, r.order_number = onum) →
      (∀ it ∈ items, ∀ r ∈ cs, r.ean ≠ it.ean) →
      (items.map RawItem.ean).Nodup →
      (VtexClientOrderItem.factoryItems onum items idx (s0 ++ cs)).1 =
        s0 ++ cs ++ specOrderItems onum idx items := by
  induction items with
  | nil => intro idx s0 cs _ _ _ _; simp [VtexClientOrderItem.factoryItems, specOrderItems]
  | cons item rest ih =>
    intro idx s0 cs hs0 hcs hdisj hnodup
    have hfind : findItem (s0 ++ cs) onum item.ean = none := by
      unfold findItem
      rw [List.find?_append]
      have h1 : List.find? (fun r => r.order_number == onum && r.ean == item.ean) s0 =
          none :=
        List.find?_eq_none.mpr (fun r hr => by simp [hs0 r hr])
      have h2 : List.find? (fun r => r.order_number == onum && r.ean == item.ean) cs =
          none :=
        List.find?_eq_none.mpr
          (fun r hr => by simp [hdisj item (List.mem_cons_self item rest) r hr])
      rw [h1, Option.none_or, h2]
    have hU : itemUpdateOrCreate (s0 ++ cs) onum item.ean
        ⟨Int.ofNat (idx + 1), item.quantity, Int.fdiv item.price 100⟩ =
        ((s0 ++ cs) ++ [specOrderItem onum idx item], specOrderItem onum idx item) := by
      unfold itemUpdateOrCreate
      rw [hfind]
      rfl
    have hstep : (s0 ++ cs) ++ [specOrderItem onum idx item] =
        s0 ++ (cs ++ [specOrderItem onum idx item]) := by
      rw [List.append_assoc]
    have hcs' : ∀ r ∈ cs ++ [specOrderItem onum idx item], r.order_number = onum := by
      intro r hr
      rcases List.mem_append.mp hr with h1 | h1
      · exact hcs r h1
      · obtain rfl : r = specOrderItem onum idx item := by simpa using h1
        rfl
    have hnodup2 : (item.ean :: rest.map RawItem.ean).Nodup := by
      rw [List.map_cons] at hnodup
      exact hnodup
    have hhead : item.ean ∉ rest.map RawItem.ean := (List.nodup_cons.mp hnodup2).1
    have hdisj' : ∀ it ∈ rest, ∀ r ∈ cs ++ [specOrderItem onum idx item],
        r.ean ≠ it.ean := by
      intro it hit r hr
      rcases List.mem_append.mp hr with h1 | h1
      · exact hdisj it (List.mem_cons_of_mem item hit) r h1
      · obtain rfl : r = specOrderItem onum idx item := by simpa using h1
        show item.ean ≠ it.ean
        intro hcon
        exact hhead (hcon ▸ List.mem_map_of_mem RawItem.ean hit)
    have hnodup' : (rest.map RawItem.ean).Nodup := (List.nodup_cons.mp hnodup2).2
    simp only [VtexClientOrderItem.factoryItems, specOrderItems]
    rw [hU]
    dsimp only
    rw [hstep, ih (idx + 1) s0 (cs ++ [specOrderItem onum idx item]) hs0 hcs' hdisj' hnodup']
    simp [List.append_assoc]

/-- C9: for a well-formed ingestion (no foreign rows for the order in the
item table, distinct EANs in the raw item list, at least one item), the
formatted file body equals one header line (the concatenated header
segments) followed by one line per stored item, joined by newlines, where
each item line is the eight pipe-joined fields with the doubled pipe after
`destination_address_code`; and the stored items of the order carry
`item_number` values 1, 2, …, n in table order — ascending. -/
theorem c9_file_body_structure (order : OrderRec) (istore : ItemStore)
    (hfresh : ∀ r ∈ istore, r.order_number ≠ order.order_number)
    (hnodup : (order.from_api.items.map RawItem.ean).Nodup)
    (hne : order.from_api.items ≠ []) :
    orderFileContent (VtexClientOrderItem.factory [order] istore).1 order =
      pyJoin "\n"
        (pyJoin "" (VtexClientOrder.get_file_headers order) ::
          (specOrderItems order.order_number 0 order.from_api.items).map specItemLine) ∧
    (orderitem_set (VtexClientOrderItem.factory [order] istore).1
        order.order_number).map ItemRec.item_number =
      (List.range' 1 order.from_api.items.length).map Int.ofNat := by
  have hstore : (VtexClientOrderItem.factory [order] istore).1 =
      istore ++ specOrderItems order.order_number 0 order.from_api.items := by
    have h := factoryItems_store order.order_number order.from_api.items 0 istore []
      hfresh (fun r hr => by simp at hr) (fun it _ r hr => by simp at hr) hnodup
    rw [List.append_nil] at h
    exact h
  have hset : orderitem_set
      (istore ++ specOrderItems order.order_number 0 order.from_api.items)
      order.order_number =
      specOrderItems order.order_number 0 order.from_api.items := by
    unfold orderitem_set
    rw [List.filter_append]
    rw [List.filter_eq_nil_iff.mpr (fun r hr => by simp [hfresh r hr])]
    rw [List.filter_eq_self.mpr (fun r hr => by
      simp [specOrderItems_keys order.order_number 0 order.from_api.items r hr])]
    exact List.nil_append _
  have hitems_ne :
      (specOrderItems order.order_number 0 order.from_api.items).map specItemLine ≠ [] := by
    intro hcon
    apply hne
    have h0 : (specOrderItems order.order_number 0 order.from_api.items).length = 0 := by
      have := congrArg List.length hcon
      simpa using this
    rw [specOrderItems_length] at h0
    exact List.length_eq_zero.mp h0
  constructor
  · unfold orderFileContent
    rw [hstore, hset]
    have hlines : VtexClientOrder.get_file_items
        (specOrderItems order.order_number 0 order.from_api.items) =
        (specOrderItems order.order_number 0 order.from_api.items).map specItemLine :=
      List.map_congr_left (fun a _ => fileLine_eq_specItemLine a)
    rw [hlines]
    exact (pyJoin_cons "\n" _ _ hitems_ne).symm
  · rw [hstore, hset]
    have h := specOrderItems_numbers order.order_number 0 order.from_api.items
    simpa using h

/-- Witness for C9 at a concrete order (two items) and the empty item
store. -/
theorem c9_file_body_structure_witness :
    orderFileContent (VtexClientOrderItem.factory [sampleOrder] []).1 sampleOrder =
      pyJoin "\n"
        (pyJoin "" (VtexClientOrder.get_file_headers sampleOrder) ::
          (specOrderItems sampleOrder.order_number 0
            sampleOrder.from_api.items).map specItemLine) ∧
    (orderitem_set (VtexClientOrderItem.factory [sampleOrder] []).1
        sampleOrder.order_number).map ItemRec.item_number =
      (List.range' 1 sampleOrder.from_api.items.length).map Int.ofNat :=
  c9_file_body_structure sampleOrder [] (fun r hr => absurd hr (List.not_mem_nil r))
    (by decide) (by decide)

theorem mem_replaceFirstOrder (s : OrderStore) (k : String) (r' x : OrderRec)
    (hx : x ∈ replaceFirstOrder s k r') : x ∈ s ∨ x = r' := by
  induction s with
  | nil => simp [replaceFirstOrder] at hx
  | cons r rest ih =>
    by_cases h : r.order_number == k
    · simp only [replaceFirstOrder, if_pos h] at hx
      rcases List.mem_cons.mp hx with h1 | h1
      · exact Or.inr h1
      · exact Or.inl (List.mem_cons_of_mem r h1)
    · simp only [replaceFirstOrder, if_neg h] at hx
      rcases List.mem_cons.mp hx with h1 | h1
      · exact Or.inl (h1 ▸ List.mem_cons_self r rest)
      · rcases ih h1 with h2 | h2
        · exact Or.inl (List.mem_cons_of_mem r h2)
        · exact Or.inr h2

theorem orderUpdateOrCreate_ret_key (s : OrderStore) (k : String) (d : OrderDefaults) :
    ((orderUpdateOrCreate s k d).2).order_number = d.order_number := by
  unfold orderUpdateOrCreate
  cases hf : findOrder s k with
  | some r => rfl
  | none => rfl

theorem mem_orderUpdateOrCreate_store (s : OrderStore) (k : String) (d : OrderDefaults)
    (r : OrderRec) (hr : r ∈ (orderUpdateOrCreate s k d).1) :
    r ∈ s ∨ r.order_number = d.order_number := by
  cases hf : findOrder s k with
  | some r0 =>
    have hU : orderUpdateOrCreate s k d =
        (replaceFirstOrder s k (applyOrderDefaults r0 d), applyOrderDefaults r0 d) := by
      unfold orderUpdateOrCreate
      rw [hf]
    rw [hU] at hr
    rcases mem_replaceFirstOrder s k _ r hr with h1 | h1
    · exact Or.inl h1
    · subst h1
      exact Or.inr rfl
  | none =>
    have hU : orderUpdateOrCreate s k d = (s ++ [newVtexClientOrder d],
        newVtexClientOrder d) := by
      unfold orderUpdateOrCreate
      rw [hf]
    rw [hU] at hr
    rcases List.mem_append.mp hr with h1 | h1
    · exact Or.inl h1
    · obtain rfl : r = newVtexClientOrder d := by simpa using h1
      exact Or.inr rfl

theorem factory_cons_eq (raw : RawOrder) (rest : List RawOrder) (s : OrderStore) :
    VtexClientOrder.factory (raw :: rest) s = (mkOrderDefaults raw).bind (fun d =>
      (VtexClientOrder.factory rest (orderUpdateOrCreate s raw.orderId d).1).bind (fun p =>
        some (p.1, (orderUpdateOrCreate s raw.orderId d).2 :: p.2))) := rfl

theorem factory_adds_only_input_keys :
    ∀ (raws : List RawOrder) (s s1 : OrderStore) (objs : List OrderRec),
      VtexClientOrder.factory raws s = some (s1, objs) →
      (∀ r ∈ s1, r ∈ s ∨ r.order_number ∈ raws.map RawOrder.orderId) ∧
      (∀ r ∈ objs, r.order_number ∈ raws.map RawOrder.orderId) ∧
      objs.length = raws.length := by
  intro raws
  induction raws with
  | nil =>
    intro s s1 objs h
    have h' : (s, ([] : List OrderRec)) = (s1, objs) :=
      Option.some.inj (h : some (s, ([] : List OrderRec)) = some (s1, objs))
    obtain ⟨rfl, rfl⟩ := (Prod.mk.injEq _ _ _ _).mp h'
    exact ⟨fun r hr => Or.inl hr, fun r hr => absurd hr (List.not_mem_nil r), rfl⟩
  | cons raw rest ih =>
    intro s s1 objs h
    rw [factory_cons_eq] at h
    cases hd : mkOrderDefaults raw with
    | none => rw [hd, Option.none_bind] at h; exact absurd h (by simp)
    | some d =>
      rw [hd, Option.some_bind] at h
      cases hrest : VtexClientOrder.factory rest (orderUpdateOrCreate s raw.orderId d).1 with
      | none => rw [hrest, Option.none_bind] at h; exact absurd h (by simp)
      | some p =>
        rw [hrest, Option.some_bind] at h
        obtain ⟨rfl, rfl⟩ : p.1 = s1 ∧
            (orderUpdateOrCreate s raw.orderId d).2 :: p.2 = objs := by simpa using h
        have hkey : d.order_number = raw.orderId := (mkOrderDefaults_key_fields raw d hd).1
        obtain ⟨ih1, ih2, ih3⟩ := ih (orderUpdateOrCreate s raw.orderId d).1 p.1 p.2
          (by rw [hrest])
        refine ⟨?_, ?_, ?_⟩
        · intro r hr
          rcases ih1 r hr with h1 | h1
          · rcases mem_orderUpdateOrCreate_store s raw.orderId d r h1 with h2 | h2
            · exact Or.inl h2
            · exact Or.inr (by simp [h2, hkey])
          · exact Or.inr (by simp [h1])
        · intro r hr
          rcases List.mem_cons.mp hr with h1 | h1
          · have : r.order_number = raw.orderId := by
              rw [h1, orderUpdateOrCreate_ret_key, hkey]
            simp [this]
          · have := ih2 r h1
            simp [this]
        · simp [ih3]

theorem runScript_eq (fetched : List RawOrder) (store : OrderStore) (istore : ItemStore) :
    runScript fetched store istore = (VtexClientOrder.factory (fetched.take 3) store).bind
      (fun p => some (p.1, (VtexClientOrderItem.factory p.2 istore).1, p.2)) := rfl

/-- C10: the sync entry point slices the fetched list to its first three
elements: `runScript` on any fetched list behaves exactly as on
`fetched.take 3`, and whenever it succeeds it persists and uploads exactly 3
orders, all of them — and all new rows of the order store — keyed by the
order ids of the first three fetched orders; the remaining fetched orders
are neither stored nor delivered in that run. -/
theorem c10_run_processes_only_first_three (fetched : List RawOrder)
    (store : OrderStore) (istore : ItemStore) (hlen : 3 < fetched.length) :
    runScript fetched store istore = runScript (fetched.take 3) store istore ∧
    (∀ s1 is1 up, runScript fetched store istore = some (s1, is1, up) →
      up.length = 3 ∧
      (∀ r ∈ up, r.order_number ∈ (fetched.take 3).map RawOrder.orderId) ∧
      (∀ r ∈ s1, r ∈ store ∨ r.order_number ∈ (fetched.take 3).map RawOrder.orderId)) := by
  constructor
  · rw [runScript_eq, runScript_eq, List.take_take, Nat.min_self]
  · intro s1 is1 up h
    rw [runScript_eq] at h
    cases hfact : VtexClientOrder.factory (fetched.take 3) store with
    | none => rw [hfact, Option.none_bind] at h; exact absurd h (by simp)
    | some p =>
      rw [hfact, Option.some_bind] at h
      obtain ⟨rfl, rfl, rfl⟩ : p.1 = s1 ∧ (VtexClientOrderItem.factory p.2 istore).1 = is1 ∧
          p.2 = up := by simpa using h
      obtain ⟨hsub, hkeys, hlen3⟩ :=
        factory_adds_only_input_keys (fetched.take 3) store p.1 p.2 (by rw [hfact])
      refine ⟨?_, hkeys, hsub⟩
      rw [hlen3, List.length_take]
      omega

/-- Witness for C10 at a concrete fetched list of four orders. -/
theorem c10_run_processes_only_first_three_witness :
    runScript [mkSampleRaw "a", mkSampleRaw "b", mkSampleRaw "c", mkSampleRaw "d"] [] [] =
      runScript ([mkSampleRaw "a", mkSampleRaw "b", mkSampleRaw "c",
        mkSampleRaw "d"].take 3) [] [] :=
  (c10_run_processes_only_first_three
    [mkSampleRaw "a", mkSampleRaw "b", mkSampleRaw "c", mkSampleRaw "d"] [] []
    (by decide)).1
